import Mathlib

/-!
Shallow embedding of the fishswarm front-end's prediction logic.

Sources embedded here:
- `src/src/components/FishBehaviorPrediction.tsx` (the component:
  state initialisation, the `useEffect` guard, `runPrediction`,
  `sampleHistoricalData`, `fetchHistoricalData`);
- `src/src/services/predictionService.ts` (`savePrediction`,
  `getPredictionHistory`);
- the Refresh Scheduler of spec section 4.3, which has no code under
  `src/` and is modelled from the spec.

JavaScript numbers are modelled as rationals; `Math.round x` is
`Int.floor (x + 1/2)` (JS rounds half toward positive infinity);
timestamps are epoch milliseconds as integers (the `toISOString`
strings of the source compare in the same order as the underlying
epoch values for the dates involved).
-/

/-- State of the `FishBehaviorPrediction` component that the claims are
about: the four `useState` cells `pattern`, `confidence`, `isLoading`,
`error` (FishBehaviorPrediction.tsx lines 31-34). -/
structure PredState where
  pattern : String
  confidence : ℚ
  isLoading : Bool
  error : Option String
deriving DecidableEq

/-- Props of the component that the embedded logic reads
(FishBehaviorPrediction.tsx lines 13-20). `initialPattern` and
`initialConfidence` are optional in the source (`?:`), hence `Option`. -/
structure FishPredictionProps where
  imageUrl : String
  filename : String
  initialPattern : Option String
  initialConfidence : Option ℚ
deriving DecidableEq

/-- JavaScript `a || b` for an optional string `a`: the empty string is
falsy, so it falls through to the default. -/
def jsOrString (v : Option String) (dflt : String) : String :=
  match v with
  | some s => if s = "" then dflt else s
  | none => dflt

/-- JavaScript truthiness of the optional string prop (`!initialPattern`
negates this). -/
def jsTruthyString (v : Option String) : Bool :=
  match v with
  | some s => !(s == "")
  | none => false

/-- Initial component state from the props: `useState(initialPattern ||
'Loading...')`, `useState(initialConfidence || 0)`,
`useState(!initialPattern)`, `useState(null)`
(FishBehaviorPrediction.tsx lines 31-34). The number `0` is falsy in
JavaScript, so `initialConfidence || 0` is `0` when the prop is `0`. -/
def initState (p : FishPredictionProps) : PredState :=
  { pattern := jsOrString p.initialPattern "Loading..."
    confidence :=
      match p.initialConfidence with
      | some c => if c = 0 then 0 else c
      | none => 0
    isLoading := !(jsTruthyString p.initialPattern)
    error := none }

/-- Guard at the top of the prediction `useEffect`: skip when
`initialPattern && initialConfidence !== undefined`
(FishBehaviorPrediction.tsx lines 87-89). -/
def skipPrediction (p : FishPredictionProps) : Bool :=
  jsTruthyString p.initialPattern && p.initialConfidence.isSome

/-- Decoded body of a classifier response: `result.pattern` (a numeric
class index) and `result.confidence` (a probability). -/
structure PredResponse where
  pattern : Int
  confidence : ℚ
deriving DecidableEq

/-- Outcome of the `fetch` to the classifier endpoint as `runPrediction`
observes it: either the promise rejects (network error), or a response
arrives with an HTTP status and a body whose JSON decoding either
fails (malformed payload: `response.json()` rejects) or yields a
`PredResponse`. -/
inductive HttpResult where
  | netError (msg : String)
  | response (status : Nat) (body : Except String PredResponse)

/-- JavaScript `response.ok`: status in the range 200-299. -/
def responseOk (status : Nat) : Bool :=
  decide (200 ≤ status) && decide (status ≤ 299)

/-- JavaScript `Math.round` on rationals: round half toward positive
infinity. -/
def jsRound (q : ℚ) : ℤ :=
  ⌊q + 1 / 2⌋

/-- Label table `patternMap` of the component, keys 1, 2, 3
(FishBehaviorPrediction.tsx lines 121-126). -/
def patternMap : Int → Option String
  | 1 => some "Swimming Straight"
  | 2 => some "Turning"
  | 3 => some "Clustering"
  | _ => none

/-- Lookup with fallback: `patternMap[result.pattern] || "Pattern " +
result.pattern` (FishBehaviorPrediction.tsx line 129). All table values
are non-empty strings, so JavaScript `||` coincides with `Option.getD`. -/
def resolvePattern (idx : Int) : String :=
  (patternMap idx).getD ("Pattern " ++ toString idx)

/-- External calls the component can issue during a prediction run. The
constructor `persistRecord` stands for a call to the history store's
`savePrediction`; it is listed so that its absence from `runPrediction`
is expressible. -/
inductive Effect where
  | fetchClassifier (imageUrl filename : String)
  | persistRecord
deriving DecidableEq

/-- The body of `runPrediction` (FishBehaviorPrediction.tsx lines
91-137), as a function of the props, the state before the run, and the
observed network outcome. Returns the state after the run and the list
of external calls issued. Empty `imageUrl`: set the error and stop
before any network call. Otherwise one `fetch` is issued; a rejected
promise, a non-ok status (the `throw` on line 115), or a rejected
`response.json()` all land in the `catch` block, which sets the
`Prediction failed: ...` message, pattern `Error` and confidence 0;
a decoded body sets the resolved pattern and the rounded percentage. -/
def runPrediction (p : FishPredictionProps) (s : PredState) (net : HttpResult) :
    PredState × List Effect :=
  if p.imageUrl = "" then
    ({ s with error := some "No image URL provided", isLoading := false }, [])
  else
    let s1 : PredState := { s with isLoading := true, error := none }
    let effs : List Effect := [Effect.fetchClassifier p.imageUrl p.filename]
    match net with
    | HttpResult.netError msg =>
        ({ s1 with error := some ("Prediction failed: " ++ msg),
                   pattern := "Error", confidence := 0, isLoading := false }, effs)
    | HttpResult.response status body =>
        if responseOk status then
          match body with
          | Except.error msg =>
              ({ s1 with error := some ("Prediction failed: " ++ msg),
                         pattern := "Error", confidence := 0, isLoading := false }, effs)
          | Except.ok r =>
              ({ s1 with pattern := resolvePattern r.pattern,
                         confidence := (jsRound (r.confidence * 100) : ℚ),
                         isLoading := false }, effs)
        else
          ({ s1 with error := some ("Prediction failed: API error: " ++ toString status),
                     pattern := "Error", confidence := 0, isLoading := false }, effs)

/-- Classifier outcomes that the spec calls a failure: promise
rejection, non-2xx status, or a body that fails to decode. -/
def classifierFailed : HttpResult → Bool
  | HttpResult.netError _ => true
  | HttpResult.response _ (Except.error _) => true
  | HttpResult.response status (Except.ok _) => !(responseOk status)

/-- The mount-time behaviour of the prediction `useEffect`
(FishBehaviorPrediction.tsx lines 85-141): when the guard fires the
state stays the initial state and nothing runs; otherwise
`runPrediction` runs from the initial state. -/
def mountEffect (p : FishPredictionProps) (net : HttpResult) :
    PredState × List Effect :=
  if skipPrediction p then (initState p, []) else runPrediction p (initState p) net

/-- Pattern text rendered by the component: `isLoading ? 'Analyzing...'
: pattern` (FishBehaviorPrediction.tsx line 301). -/
def displayedPattern (s : PredState) : String :=
  if s.isLoading then "Analyzing..." else s.pattern

/-- Record persisted and fetched by the prediction service
(predictionService.ts lines 16-22). The source's `Date` timestamp is
modelled by its epoch milliseconds; the Firestore round-trip
`Timestamp.fromDate` / `toDate` is the identity on that value. -/
structure PredictionRecord where
  timestamp : ℤ
  filename : String
  pattern : String
  confidence : ℚ
  imageUrl : String
deriving DecidableEq

/-- Record shape of the component's history panel
(FishBehaviorPrediction.tsx lines 4-10). The source stores the
timestamp as an ISO string; it is modelled by the epoch milliseconds of
the `Date` it was produced from, which order the same way. -/
structure HistoricalPrediction where
  timestamp : ℤ
  filename : String
  pattern : String
  confidence : ℚ
  imageUrl : String
deriving DecidableEq

/-- Sample history of the component (FishBehaviorPrediction.tsx lines
37-73), as a function of the current clock `now` (epoch ms): the five
entries are anchored 2 days, 1 day, 5 hours, 2 hours and 30 minutes in
the past, in that list order. -/
def sampleHistoricalData (now : ℤ) : List HistoricalPrediction :=
  [ { timestamp := now - 86400000 * 2
      filename := "goldfish_1.jpg"
      pattern := "Swimming Straight"
      confidence := 92
      imageUrl := "https://firebasestorage.example.com/fish/zebrafish_sample1.jpg" },
    { timestamp := now - 86400000 * 1
      filename := "goldfish_2.jpg"
      pattern := "Turning"
      confidence := 87
      imageUrl := "https://firebasestorage.example.com/fish/goldfish_turning_behavior.jpg" },
    { timestamp := now - 3600000 * 5
      filename := "goldfish_3.jpg"
      pattern := "Clustering"
      confidence := 95
      imageUrl := "https://firebasestorage.example.com/fish/tetra_school_feeding.jpg" },
    { timestamp := now - 3600000 * 2
      filename := "goldfish_4.jpg"
      pattern := "Swimming Straight"
      confidence := 78
      imageUrl := "https://firebasestorage.example.com/fish/betta_exploration.jpg" },
    { timestamp := now - 1800000
      filename := "goldfish_5.jpg"
      pattern := "Turning"
      confidence := 89
      imageUrl := "https://firebasestorage.example.com/fish/guppy_mating_display.jpg" } ]

/-- Sample branch of the component's `fetchHistoricalData`
(FishBehaviorPrediction.tsx lines 144-178): when `useSampleData` is
set, the history state becomes `sampleHistoricalData` regardless of any
endpoint or count; otherwise it becomes whatever list the history
endpoint returned. -/
def fetchHistoricalData (useSampleData : Bool) (now : ℤ)
    (endpointData : List HistoricalPrediction) : List HistoricalPrediction :=
  if useSampleData then sampleHistoricalData now else endpointData

/-- Boolean check that consecutive keys never increase (newest first). -/
def sortedDescBy {α : Type} (f : α → ℤ) : List α → Bool
  | [] => true
  | [_] => true
  | x :: y :: xs => decide (f y ≤ f x) && sortedDescBy f (y :: xs)

/-- Boolean check that consecutive keys never decrease (oldest first). -/
def sortedAscBy {α : Type} (f : α → ℤ) : List α → Bool
  | [] => true
  | [_] => true
  | x :: y :: xs => decide (f x ≤ f y) && sortedAscBy f (y :: xs)

/-- Insertion of a record into a list kept in descending-timestamp
order. -/
def insertDesc (r : PredictionRecord) : List PredictionRecord → List PredictionRecord
  | [] => [r]
  | x :: xs => if x.timestamp ≤ r.timestamp then r :: x :: xs else x :: insertDesc r xs

/-- Insertion sort into descending-timestamp order. -/
def sortDesc : List PredictionRecord → List PredictionRecord
  | [] => []
  | x :: xs => insertDesc x (sortDesc xs)

/-- Modelled from the spec and the query constraints the source passes:
evaluation of the Firestore query built in `getPredictionHistory`
(`orderBy('timestamp', 'desc')` with `limit(n)`) over the documents of
the collection — the documents in descending timestamp order, capped at
`n`. The query engine itself is external to the repository. -/
def firestoreQuery (docs : List PredictionRecord) (n : Nat) : List PredictionRecord :=
  (sortDesc docs).take n

/-- Embedding of `getPredictionHistory` (predictionService.ts lines
64-94): executes the query and converts each document back to a
`PredictionRecord`. The default `limitCount` is 20 as in the source. -/
def getPredictionHistory (docs : List PredictionRecord) (limitCount : Nat := 20) :
    List PredictionRecord :=
  firestoreQuery docs limitCount

/-- Result of the external `addDoc` call inside `savePrediction`. -/
inductive AddDocResult where
  | ok (id : String)
  | error (msg : String)

/-- Embedding of `savePrediction` (predictionService.ts lines 39-58)
over an explicit collection state: on `addDoc` success the converted
record is appended to the collection and the new document id is
returned; on backend error the source logs and rethrows (`throw
error`), so the error propagates to the caller unchanged. -/
def savePrediction (docs : List PredictionRecord) (rec : PredictionRecord)
    (backend : AddDocResult) : Except String (String × List PredictionRecord) :=
  match backend with
  | AddDocResult.ok id => Except.ok (id, docs ++ [rec])
  | AddDocResult.error msg => Except.error msg

/-- The operations exported by `predictionService.ts`: exactly
`savePrediction` (append) and `getPredictionHistory` (fetchRecent); the
module exports no update and no delete operation. -/
inductive AdapterOp where
  | append
  | fetchRecent
deriving DecidableEq

/-- Modelled from the spec: the Refresh Scheduler's default interval,
300000 ms (spec section 4.3). No scheduler code exists under `src/`. -/
def schedDefaultInterval : Nat := 300000

/-- Modelled from the spec: `lastRefreshTime` of the Refresh Scheduler
after processing millisecond ticks `t0+1 .. t0+n`, with auto-refresh
enabled throughout and no manual triggers. The countdown is anchored at
`lastRefreshTime`; when `I` milliseconds have elapsed the Prediction
Client is invoked and `lastRefreshTime` resets to now (spec section
4.3). -/
def schedLast (I t0 : Nat) : Nat → Nat
  | 0 => t0
  | n + 1 => if schedLast I t0 n + I ≤ t0 + n + 1 then t0 + n + 1 else schedLast I t0 n

/-- Modelled from the spec: the number of classification attempts the
scheduler fires during ticks `t0+1 .. t0+n`. -/
def schedFireCount (I t0 : Nat) : Nat → Nat
  | 0 => 0
  | n + 1 =>
      schedFireCount I t0 n + (if schedLast I t0 n + I ≤ t0 + n + 1 then 1 else 0)

/-- Modelled from the spec: the observable countdown, milliseconds
remaining until the next scheduled attempt, recomputed as a clock
difference from the anchor (spec section 4.3). -/
def schedCountdown (I last now : Nat) : ℤ :=
  (last : ℤ) + I - now

/-- C1: for every classifier response whose confidence probability `c`
lies in [0,1] (and any mounted props with a non-empty image URL), the
confidence the component stores equals `round(c*100)` and lies in
[0,100]. -/
theorem confidence_rounding_in_range (p : FishPredictionProps) (s : PredState)
    (idx : Int) (c : ℚ) (hurl : p.imageUrl ≠ "") (h0 : 0 ≤ c) (h1 : c ≤ 1) :
    (runPrediction p s (HttpResult.response 200 (Except.ok ⟨idx, c⟩))).1.confidence
      = (jsRound (c * 100) : ℚ) ∧
    0 ≤ jsRound (c * 100) ∧ jsRound (c * 100) ≤ 100 := by
  refine ⟨by simp [runPrediction, hurl, responseOk], ?_, ?_⟩
  · rw [jsRound]
    exact Int.le_floor.mpr (by push_cast; linarith)
  · rw [jsRound]
    have h2 : c * 100 + 1 / 2 < ((101 : ℤ) : ℚ) := by push_cast; linarith
    have := Int.floor_lt.mpr h2
    omega

/-- Witness for C1 at `c = 87/100`. -/
theorem confidence_rounding_in_range_witness :
    ("a.jpg" : String) ≠ "" ∧ (0 : ℚ) ≤ 87 / 100 ∧ (87 : ℚ) / 100 ≤ 1 ∧
    ((runPrediction ⟨"a.jpg", "a.jpg", none, none⟩
        (initState ⟨"a.jpg", "a.jpg", none, none⟩)
        (HttpResult.response 200 (Except.ok ⟨2, 87 / 100⟩))).1.confidence
      = (jsRound ((87 : ℚ) / 100 * 100) : ℚ) ∧
     0 ≤ jsRound ((87 : ℚ) / 100 * 100) ∧ jsRound ((87 : ℚ) / 100 * 100) ≤ 100) :=
  ⟨by decide, by norm_num, by norm_num,
   confidence_rounding_in_range ⟨"a.jpg", "a.jpg", none, none⟩
     (initState ⟨"a.jpg", "a.jpg", none, none⟩) 2 (87 / 100)
     (by decide) (by norm_num) (by norm_num)⟩

/-- C2: for every numeric class index of a successful response, an
index present in the label table displays the table's name, and an
index absent from the table displays the synthesized string
`Pattern` followed by the index; the pattern is a total string, never
undefined. -/
theorem pattern_lookup_with_fallback (p : FishPredictionProps) (s : PredState)
    (idx : Int) (c : ℚ) (hurl : p.imageUrl ≠ "") :
    (runPrediction p s (HttpResult.response 200 (Except.ok ⟨idx, c⟩))).1.pattern
      = resolvePattern idx ∧
    (∀ name, patternMap idx = some name →
      (runPrediction p s (HttpResult.response 200 (Except.ok ⟨idx, c⟩))).1.pattern = name) ∧
    (patternMap idx = none →
      (runPrediction p s (HttpResult.response 200 (Except.ok ⟨idx, c⟩))).1.pattern
        = "Pattern " ++ toString idx) := by
  have hpat : (runPrediction p s (HttpResult.response 200 (Except.ok ⟨idx, c⟩))).1.pattern
      = resolvePattern idx := by
    simp [runPrediction, hurl, responseOk]
  refine ⟨hpat, ?_, ?_⟩
  · intro name h
    rw [hpat, resolvePattern, h, Option.getD_some]
  · intro h
    rw [hpat, resolvePattern, h, Option.getD_none]

/-- Witness for C2 at the unmapped index 7 and the mapped index 2. -/
theorem pattern_lookup_with_fallback_witness :
    ("a.jpg" : String) ≠ "" ∧
    ((runPrediction ⟨"a.jpg", "a.jpg", none, none⟩
        (initState ⟨"a.jpg", "a.jpg", none, none⟩)
        (HttpResult.response 200 (Except.ok ⟨7, 1 / 2⟩))).1.pattern = resolvePattern 7 ∧
     (∀ name, patternMap 7 = some name →
       (runPrediction ⟨"a.jpg", "a.jpg", none, none⟩
        (initState ⟨"a.jpg", "a.jpg", none, none⟩)
        (HttpResult.response 200 (Except.ok ⟨7, 1 / 2⟩))).1.pattern = name) ∧
     (patternMap 7 = none →
       (runPrediction ⟨"a.jpg", "a.jpg", none, none⟩
        (initState ⟨"a.jpg", "a.jpg", none, none⟩)
        (HttpResult.response 200 (Except.ok ⟨7, 1 / 2⟩))).1.pattern
         = "Pattern " ++ toString (7 : Int))) :=
  ⟨by decide,
   pattern_lookup_with_fallback ⟨"a.jpg", "a.jpg", none, none⟩
     (initState ⟨"a.jpg", "a.jpg", none, none⟩) 7 (1 / 2) (by decide)⟩

/-- C3: every failing classification attempt (rejected fetch, non-2xx
status, or malformed body) leaves pattern `Error`, confidence 0, and a
non-null error message of the form `Prediction failed: ...`. -/
theorem classifier_failure_sets_error_state (p : FishPredictionProps) (s : PredState)
    (net : HttpResult) (hurl : p.imageUrl ≠ "") (hfail : classifierFailed net = true) :
    (runPrediction p s net).1.pattern = "Error" ∧
    (runPrediction p s net).1.confidence = 0 ∧
    ∃ rest, (runPrediction p s net).1.error = some ("Prediction failed: " ++ rest) := by
  cases net with
  | netError msg =>
      exact ⟨by simp [runPrediction, hurl], by simp [runPrediction, hurl],
             msg, by simp [runPrediction, hurl]⟩
  | response status body =>
      cases body with
      | error msg =>
          by_cases hok : responseOk status = true
          · exact ⟨by simp [runPrediction, hurl, hok], by simp [runPrediction, hurl, hok],
                   msg, by simp [runPrediction, hurl, hok]⟩
          · rw [Bool.not_eq_true] at hok
            exact ⟨by simp [runPrediction, hurl, hok], by simp [runPrediction, hurl, hok],
                   "API error: " ++ toString status,
                   by simp [runPrediction, hurl, hok]; rw [← String.append_assoc]; rfl⟩
      | ok r =>
          have hok : responseOk status = false := by
            simpa [classifierFailed] using hfail
          exact ⟨by simp [runPrediction, hurl, hok], by simp [runPrediction, hurl, hok],
                 "API error: " ++ toString status,
                 by simp [runPrediction, hurl, hok]; rw [← String.append_assoc]; rfl⟩

/-- Witness for C3 at a rejected fetch. -/
theorem classifier_failure_sets_error_state_witness :
    ("a.jpg" : String) ≠ "" ∧
    classifierFailed (HttpResult.netError "Failed to fetch") = true ∧
    ((runPrediction ⟨"a.jpg", "a.jpg", none, none⟩
        (initState ⟨"a.jpg", "a.jpg", none, none⟩)
        (HttpResult.netError "Failed to fetch")).1.pattern = "Error" ∧
     (runPrediction ⟨"a.jpg", "a.jpg", none, none⟩
        (initState ⟨"a.jpg", "a.jpg", none, none⟩)
        (HttpResult.netError "Failed to fetch")).1.confidence = 0 ∧
     ∃ rest, (runPrediction ⟨"a.jpg", "a.jpg", none, none⟩
        (initState ⟨"a.jpg", "a.jpg", none, none⟩)
        (HttpResult.netError "Failed to fetch")).1.error
          = some ("Prediction failed: " ++ rest)) :=
  ⟨by decide, by decide,
   classifier_failure_sets_error_state ⟨"a.jpg", "a.jpg", none, none⟩
     (initState ⟨"a.jpg", "a.jpg", none, none⟩)
     (HttpResult.netError "Failed to fetch") (by decide) (by decide)⟩

/-- C4: invoking the prediction with an empty image URL fails
immediately with the invalid-input error message and issues no network
call at all (the effect list is empty, so the classifier endpoint is
never contacted). -/
theorem empty_image_url_no_fetch (p : FishPredictionProps) (s : PredState)
    (net : HttpResult) (hurl : p.imageUrl = "") :
    (runPrediction p s net).2 = [] ∧
    (runPrediction p s net).1.error = some "No image URL provided" ∧
    (runPrediction p s net).1.isLoading = false := by
  refine ⟨?_, ?_, ?_⟩ <;> simp [runPrediction, hurl]

/-- Witness for C4 at an empty image URL. -/
theorem empty_image_url_no_fetch_witness :
    ("" : String) = "" ∧
    ((runPrediction ⟨"", "a.jpg", none, none⟩
        (initState ⟨"", "a.jpg", none, none⟩)
        (HttpResult.netError "x")).2 = [] ∧
     (runPrediction ⟨"", "a.jpg", none, none⟩
        (initState ⟨"", "a.jpg", none, none⟩)
        (HttpResult.netError "x")).1.error = some "No image URL provided" ∧
     (runPrediction ⟨"", "a.jpg", none, none⟩
        (initState ⟨"", "a.jpg", none, none⟩)
        (HttpResult.netError "x")).1.isLoading = false) :=
  ⟨rfl,
   empty_image_url_no_fetch ⟨"", "a.jpg", none, none⟩
     (initState ⟨"", "a.jpg", none, none⟩) (HttpResult.netError "x") rfl⟩

/-- C9: when the prediction runs with an empty image URL, only the
error message and the loading flag change: pattern and confidence keep
their initial values (`initialPattern || 'Loading...'` and
`initialConfidence || 0`), and the `Error`/0 failure sentinel is not
applied. -/
theorem empty_image_url_frame (p : FishPredictionProps) (net : HttpResult)
    (hurl : p.imageUrl = "") :
    (runPrediction p (initState p) net).1.pattern = (initState p).pattern ∧
    (runPrediction p (initState p) net).1.confidence = (initState p).confidence ∧
    (runPrediction p (initState p) net).1.pattern = jsOrString p.initialPattern "Loading..." ∧
    (runPrediction p (initState p) net).1.error = some "No image URL provided" ∧
    (runPrediction p (initState p) net).1.isLoading = false := by
  refine ⟨?_, ?_, ?_, ?_, ?_⟩ <;> simp [runPrediction, hurl, initState]

/-- Witness for C9: empty URL with an initial pattern present. -/
theorem empty_image_url_frame_witness :
    ("" : String) = "" ∧
    ((runPrediction ⟨"", "a.jpg", some "Turning", none⟩
        (initState ⟨"", "a.jpg", some "Turning", none⟩)
        (HttpResult.netError "x")).1.pattern
      = (initState ⟨"", "a.jpg", some "Turning", none⟩).pattern ∧
     (runPrediction ⟨"", "a.jpg", some "Turning", none⟩
        (initState ⟨"", "a.jpg", some "Turning", none⟩)
        (HttpResult.netError "x")).1.confidence
      = (initState ⟨"", "a.jpg", some "Turning", none⟩).confidence ∧
     (runPrediction ⟨"", "a.jpg", some "Turning", none⟩
        (initState ⟨"", "a.jpg", some "Turning", none⟩)
        (HttpResult.netError "x")).1.pattern
      = jsOrString (some "Turning") "Loading..." ∧
     (runPrediction ⟨"", "a.jpg", some "Turning", none⟩
        (initState ⟨"", "a.jpg", some "Turning", none⟩)
        (HttpResult.netError "x")).1.error = some "No image URL provided" ∧
     (runPrediction ⟨"", "a.jpg", some "Turning", none⟩
        (initState ⟨"", "a.jpg", some "Turning", none⟩)
        (HttpResult.netError "x")).1.isLoading = false) :=
  ⟨rfl,
   empty_image_url_frame ⟨"", "a.jpg", some "Turning", none⟩ (HttpResult.netError "x") rfl⟩

/-- C10: on mount with a non-empty `initialPattern` and a defined
`initialConfidence`, the prediction effect is skipped (no run, no
network call) and the displayed pattern and stored confidence equal the
two prop values; with `initialPattern` set but `initialConfidence`
undefined, the guard does not fire, the prediction runs, and the
classifier fetch is issued whenever the image URL is non-empty. -/
theorem initial_props_skip_prediction (p : FishPredictionProps) (net : HttpResult)
    (pat : String) (h1 : p.initialPattern = some pat) (h2 : pat ≠ "") :
    (∀ c : ℚ, p.initialConfidence = some c →
      mountEffect p net = (initState p, []) ∧
      displayedPattern (initState p) = pat ∧
      (initState p).confidence = c) ∧
    (p.initialConfidence = none →
      skipPrediction p = false ∧
      mountEffect p net = runPrediction p (initState p) net ∧
      (p.imageUrl ≠ "" →
        Effect.fetchClassifier p.imageUrl p.filename ∈ (mountEffect p net).2)) := by
  constructor
  · intro c hc
    have hskip : skipPrediction p = true := by
      simp [skipPrediction, jsTruthyString, h1, h2, hc]
    refine ⟨by simp [mountEffect, hskip], ?_, ?_⟩
    · simp [displayedPattern, initState, jsOrString, jsTruthyString, h1, h2]
    · by_cases hc0 : c = 0 <;> simp [initState, hc, hc0]
  · intro hc
    have hskip : skipPrediction p = false := by
      simp [skipPrediction, hc]
    refine ⟨hskip, by simp [mountEffect, hskip], ?_⟩
    intro hurl
    simp only [mountEffect, hskip, if_neg Bool.false_ne_true]
    cases net with
    | netError msg => simp [runPrediction, hurl]
    | response status body =>
        by_cases hok : responseOk status = true
        · cases body with
          | error msg => simp [runPrediction, hurl, hok]
          | ok r => simp [runPrediction, hurl, hok]
        · rw [Bool.not_eq_true] at hok
          simp [runPrediction, hurl, hok]

/-- Witness for C10: both prop configurations at concrete values. -/
theorem initial_props_skip_prediction_witness :
    ((⟨"a.jpg", "a.jpg", some "Turning", some 92⟩ : FishPredictionProps).initialPattern
       = some "Turning" ∧ ("Turning" : String) ≠ "" ∧
     mountEffect ⟨"a.jpg", "a.jpg", some "Turning", some 92⟩ (HttpResult.netError "x")
       = (initState ⟨"a.jpg", "a.jpg", some "Turning", some 92⟩, []) ∧
     displayedPattern (initState ⟨"a.jpg", "a.jpg", some "Turning", some 92⟩) = "Turning" ∧
     (initState ⟨"a.jpg", "a.jpg", some "Turning", some 92⟩).confidence = 92) ∧
    (skipPrediction ⟨"a.jpg", "a.jpg", some "Turning", none⟩ = false ∧
     Effect.fetchClassifier "a.jpg" "a.jpg"
       ∈ (mountEffect ⟨"a.jpg", "a.jpg", some "Turning", none⟩ (HttpResult.netError "x")).2) := by
  constructor
  · have h := (initial_props_skip_prediction ⟨"a.jpg", "a.jpg", some "Turning", some 92⟩
      (HttpResult.netError "x") "Turning" rfl (by decide)).1 92 rfl
    exact ⟨rfl, by decide, h.1, h.2.1, h.2.2⟩
  · have h := (initial_props_skip_prediction ⟨"a.jpg", "a.jpg", some "Turning", none⟩
      (HttpResult.netError "x") "Turning" rfl (by decide)).2 rfl
    exact ⟨h.1, h.2.2 (by decide)⟩

/-- Inserting into a list adds exactly one element. -/
theorem insertDesc_length (r : PredictionRecord) (l : List PredictionRecord) :
    (insertDesc r l).length = l.length + 1 := by
  induction l with
  | nil => rfl
  | cons x xs ih =>
      simp only [insertDesc]
      by_cases h : x.timestamp ≤ r.timestamp
      · rw [if_pos h]; rfl
      · rw [if_neg h]; simp [ih]

/-- The insertion sort preserves length. -/
theorem sortDesc_length (l : List PredictionRecord) :
    (sortDesc l).length = l.length := by
  induction l with
  | nil => rfl
  | cons x xs ih => simp [sortDesc, insertDesc_length, ih]

/-- Insertion into a descending list keeps it descending. -/
theorem sortedDescBy_insertDesc (r : PredictionRecord) (l : List PredictionRecord)
    (h : sortedDescBy PredictionRecord.timestamp l = true) :
    sortedDescBy PredictionRecord.timestamp (insertDesc r l) = true := by
  induction l with
  | nil => rfl
  | cons x xs ih =>
      simp only [insertDesc]
      by_cases hle : x.timestamp ≤ r.timestamp
      · rw [if_pos hle]
        simpa [sortedDescBy, hle] using h
      · rw [if_neg hle]
        cases xs with
        | nil =>
            simp [insertDesc, sortedDescBy]
            omega
        | cons y ys =>
            simp only [sortedDescBy, Bool.and_eq_true, decide_eq_true_eq] at h
            have hins := ih h.2
            simp only [insertDesc] at hins ⊢
            by_cases hy : y.timestamp ≤ r.timestamp
            · rw [if_pos hy] at hins ⊢
              simp only [sortedDescBy, Bool.and_eq_true, decide_eq_true_eq] at hins ⊢
              exact ⟨by omega, hins⟩
            · rw [if_neg hy] at hins ⊢
              simp only [sortedDescBy, Bool.and_eq_true, decide_eq_true_eq] at hins ⊢
              exact ⟨h.1, hins⟩

/-- The insertion sort produces a descending list. -/
theorem sortedDescBy_sortDesc (l : List PredictionRecord) :
    sortedDescBy PredictionRecord.timestamp (sortDesc l) = true := by
  induction l with
  | nil => rfl
  | cons x xs ih => exact sortedDescBy_insertDesc x (sortDesc xs) ih

/-- A prefix of a descending list is descending. -/
theorem sortedDescBy_take {α : Type} (f : α → ℤ) :
    ∀ (l : List α), sortedDescBy f l = true →
      ∀ n : Nat, sortedDescBy f (l.take n) = true := by
  intro l
  induction l with
  | nil => intro _ n; simp [sortedDescBy]
  | cons x xs ih =>
      intro h n
      cases n with
      | zero => rfl
      | succ m =>
          cases xs with
          | nil => cases m <;> rfl
          | cons y ys =>
              simp only [sortedDescBy, Bool.and_eq_true, decide_eq_true_eq] at h
              cases m with
              | zero => simp [sortedDescBy]
              | succ k =>
                  have htail := ih h.2 (k + 1)
                  simp only [List.take_succ_cons] at htail ⊢
                  simp only [sortedDescBy, Bool.and_eq_true, decide_eq_true_eq]
                  exact ⟨h.1, by simpa using htail⟩

/-- C5 counterexample: with the clock at epoch 0, the interchangeable
sample-data path of the history fetch returns its five records
oldest-first — the sequence is not ordered descending by timestamp, so
the claimed ordering fails on that path. -/
theorem history_fetch_sample_not_descending :
    sortedDescBy HistoricalPrediction.timestamp (fetchHistoricalData true 0 []) = false := by
  decide

/-- C5 (amended): the real backend path (`getPredictionHistory` over
the modelled datastore query) returns at most `limitCount` records in
descending-timestamp order with default limit 20, and is a pure
function of the collection (so repeated calls with unchanged data
agree); the sample-data path instead always returns the same fixed
five records in ascending-timestamp order (oldest first), ignoring the
endpoint data and any count. -/
theorem history_fetch_amended (docs : List PredictionRecord) (n : Nat) (now : ℤ)
    (endpointData : List HistoricalPrediction) :
    (getPredictionHistory docs n).length ≤ n ∧
    sortedDescBy PredictionRecord.timestamp (getPredictionHistory docs n) = true ∧
    getPredictionHistory docs = getPredictionHistory docs 20 ∧
    fetchHistoricalData true now endpointData = sampleHistoricalData now ∧
    (sampleHistoricalData now).length = 5 ∧
    sortedAscBy HistoricalPrediction.timestamp (sampleHistoricalData now) = true := by
  refine ⟨?_, ?_, rfl, rfl, rfl, ?_⟩
  · simp [getPredictionHistory, firestoreQuery]
  · exact sortedDescBy_take PredictionRecord.timestamp (sortDesc docs)
      (sortedDescBy_sortDesc docs) n
  · simp [sampleHistoricalData, sortedAscBy]
    omega

/-- Anchor of the modelled scheduler in closed form: after `n`
millisecond ticks the last refresh happened `n % I` milliseconds ago. -/
theorem schedLast_eq (I t0 : Nat) (hI : 0 < I) :
    ∀ n, schedLast I t0 n = t0 + I * (n / I) := by
  intro n
  induction n with
  | zero => simp [schedLast]
  | succ n ih =>
      have hdm : I * (n / I) + n % I = n := Nat.div_add_mod n I
      have hmod : n % I < I := Nat.mod_lt n hI
      have hrepr : n + 1 = I * (n / I) + (n % I + 1) := by omega
      have hdiv : (n + 1) / I = n / I + (n % I + 1) / I := by
        conv_lhs => rw [hrepr]
        exact Nat.mul_add_div hI (n / I) (n % I + 1)
      simp only [schedLast]
      rw [ih]
      by_cases h : t0 + I * (n / I) + I ≤ t0 + n + 1
      · rw [if_pos h]
        have hr : n % I + 1 = I := by omega
        have h1 : (n % I + 1) / I = 1 := by rw [hr, Nat.div_self hI]
        have h2 : I * (n / I + 1) = I * (n / I) + I := by ring
        rw [hdiv, h1]
        omega
      · rw [if_neg h]
        have hr : n % I + 1 < I := by omega
        have h1 : (n % I + 1) / I = 0 := Nat.div_eq_of_lt hr
        rw [hdiv, h1]
        simp

/-- Fire count of the modelled scheduler in closed form. -/
theorem schedFireCount_eq (I t0 : Nat) (hI : 0 < I) :
    ∀ n, schedFireCount I t0 n = n / I := by
  intro n
  induction n with
  | zero => simp [schedFireCount]
  | succ n ih =>
      have hdm : I * (n / I) + n % I = n := Nat.div_add_mod n I
      have hmod : n % I < I := Nat.mod_lt n hI
      have hrepr : n + 1 = I * (n / I) + (n % I + 1) := by omega
      have hdiv : (n + 1) / I = n / I + (n % I + 1) / I := by
        conv_lhs => rw [hrepr]
        exact Nat.mul_add_div hI (n / I) (n % I + 1)
      simp only [schedFireCount]
      rw [ih, schedLast_eq I t0 hI n]
      by_cases h : t0 + I * (n / I) + I ≤ t0 + n + 1
      · rw [if_pos h]
        have hr : n % I + 1 = I := by omega
        have h1 : (n % I + 1) / I = 1 := by rw [hr, Nat.div_self hI]
        rw [hdiv, h1]
      · rw [if_neg h]
        have hr : n % I + 1 < I := by omega
        have h1 : (n % I + 1) / I = 0 := Nat.div_eq_of_lt hr
        rw [hdiv, h1]

/-- The countdown of the modelled scheduler is never negative. -/
theorem schedCountdown_nonneg (I t0 n : Nat) (hI : 0 < I) :
    0 ≤ schedCountdown I (schedLast I t0 n) (t0 + n) := by
  have hdm : I * (n / I) + n % I = n := Nat.div_add_mod n I
  have hmod : n % I < I := Nat.mod_lt n hI
  rw [schedCountdown, schedLast_eq I t0 hI n]
  set k := I * (n / I) with hk
  omega

/-- C6 (spec-modelled): with auto-refresh enabled at interval `I` and
no manual triggers, the scheduler fires `n / I` classification attempts
over any `n` milliseconds from the anchor — exactly one more attempt
per further `I` milliseconds — the observable countdown is never
negative, and the default interval is 300000 ms. -/
theorem refresh_scheduler_period_and_countdown (I t0 n : Nat) (hI : 0 < I) :
    schedFireCount I t0 n = n / I ∧
    (∀ m : Nat, schedFireCount I t0 (m + I) = schedFireCount I t0 m + 1) ∧
    0 ≤ schedCountdown I (schedLast I t0 n) (t0 + n) ∧
    schedDefaultInterval = 300000 := by
  refine ⟨schedFireCount_eq I t0 hI n, ?_, schedCountdown_nonneg I t0 n hI, rfl⟩
  intro m
  rw [schedFireCount_eq I t0 hI, schedFireCount_eq I t0 hI, Nat.add_div_right m hI]

/-- Witness for C6 at interval 3, anchor 5, window 7, offset 4. -/
theorem refresh_scheduler_period_and_countdown_witness :
    0 < 3 ∧
    (schedFireCount 3 5 7 = 7 / 3 ∧
     schedFireCount 3 5 (4 + 3) = schedFireCount 3 5 4 + 1 ∧
     0 ≤ schedCountdown 3 (schedLast 3 5 7) (5 + 7) ∧
     schedDefaultInterval = 300000) :=
  ⟨by decide,
   (refresh_scheduler_period_and_countdown 3 5 7 (by decide)).1,
   (refresh_scheduler_period_and_countdown 3 5 7 (by decide)).2.1 4,
   (refresh_scheduler_period_and_countdown 3 5 7 (by decide)).2.2.1,
   (refresh_scheduler_period_and_countdown 3 5 7 (by decide)).2.2.2⟩

/-- C7 counterexample: a concrete successful classification (status
200, class index 2, confidence 0.87) updates the rendered state, but
the run's only external call is the classifier fetch — no persistence
call is made, so the record is not forwarded to the history store. -/
theorem success_not_persisted_counterexample :
    (runPrediction ⟨"a.jpg", "a.jpg", none, none⟩
        (initState ⟨"a.jpg", "a.jpg", none, none⟩)
        (HttpResult.response 200 (Except.ok ⟨2, 87 / 100⟩))).1.pattern = "Turning" ∧
    (runPrediction ⟨"a.jpg", "a.jpg", none, none⟩
        (initState ⟨"a.jpg", "a.jpg", none, none⟩)
        (HttpResult.response 200 (Except.ok ⟨2, 87 / 100⟩))).1.confidence = 87 ∧
    (runPrediction ⟨"a.jpg", "a.jpg", none, none⟩
        (initState ⟨"a.jpg", "a.jpg", none, none⟩)
        (HttpResult.response 200 (Except.ok ⟨2, 87 / 100⟩))).2
      = [Effect.fetchClassifier "a.jpg" "a.jpg"] ∧
    Effect.persistRecord ∉ (runPrediction ⟨"a.jpg", "a.jpg", none, none⟩
        (initState ⟨"a.jpg", "a.jpg", none, none⟩)
        (HttpResult.response 200 (Except.ok ⟨2, 87 / 100⟩))).2 := by
  refine ⟨?_, ?_, ?_, ?_⟩ <;>
    simp [runPrediction, initState, responseOk, resolvePattern, patternMap, jsRound]
  norm_num [Int.floor_eq_iff]

/-- C7 (amended): every successful classification response is rendered
— the stored pattern and confidence are the resolved label and the
rounded percentage — but the resulting record is not forwarded to the
history store: the run's external calls are exactly the single
classifier fetch, and no prediction run ever issues a persistence
call (`savePrediction` is never invoked by `runPrediction`). -/
theorem success_renders_but_does_not_persist (p : FishPredictionProps)
    (s : PredState) (r : PredResponse) (hurl : p.imageUrl ≠ "") :
    (runPrediction p s (HttpResult.response 200 (Except.ok r))).1.pattern
      = resolvePattern r.pattern ∧
    (runPrediction p s (HttpResult.response 200 (Except.ok r))).1.confidence
      = (jsRound (r.confidence * 100) : ℚ) ∧
    (runPrediction p s (HttpResult.response 200 (Except.ok r))).2
      = [Effect.fetchClassifier p.imageUrl p.filename] ∧
    (∀ net, Effect.persistRecord ∉ (runPrediction p s net).2) := by
  refine ⟨by simp [runPrediction, hurl, responseOk],
          by simp [runPrediction, hurl, responseOk],
          by simp [runPrediction, hurl, responseOk], ?_⟩
  intro net
  cases net with
  | netError msg => simp [runPrediction, hurl]
  | response status body =>
      by_cases hok : responseOk status = true
      · cases body with
        | error msg => simp [runPrediction, hurl, hok]
        | ok r => simp [runPrediction, hurl, hok]
      · rw [Bool.not_eq_true] at hok
        simp [runPrediction, hurl, hok]

/-- Witness for C7 (amended) at a concrete successful response. -/
theorem success_renders_but_does_not_persist_witness :
    ("a.jpg" : String) ≠ "" ∧
    ((runPrediction ⟨"a.jpg", "a.jpg", none, none⟩
        (initState ⟨"a.jpg", "a.jpg", none, none⟩)
        (HttpResult.response 200 (Except.ok ⟨2, 87 / 100⟩))).1.pattern
      = resolvePattern 2 ∧
     (runPrediction ⟨"a.jpg", "a.jpg", none, none⟩
        (initState ⟨"a.jpg", "a.jpg", none, none⟩)
        (HttpResult.response 200 (Except.ok ⟨2, 87 / 100⟩))).1.confidence
      = (jsRound ((87 : ℚ) / 100 * 100) : ℚ) ∧
     (runPrediction ⟨"a.jpg", "a.jpg", none, none⟩
        (initState ⟨"a.jpg", "a.jpg", none, none⟩)
        (HttpResult.response 200 (Except.ok ⟨2, 87 / 100⟩))).2
      = [Effect.fetchClassifier "a.jpg" "a.jpg"] ∧
     (∀ net, Effect.persistRecord ∉ (runPrediction ⟨"a.jpg", "a.jpg", none, none⟩
        (initState ⟨"a.jpg", "a.jpg", none, none⟩) net).2)) :=
  ⟨by decide,
   success_renders_but_does_not_persist ⟨"a.jpg", "a.jpg", none, none⟩
     (initState ⟨"a.jpg", "a.jpg", none, none⟩) ⟨2, 87 / 100⟩ (by decide)⟩

/-- C8: `savePrediction` appends exactly one record per call and
returns the backend-assigned document id on success; on backend error
the error propagates to the caller unchanged (the source rethrows after
logging); and the service module exposes exactly the append and
fetch-recent operations — no update and no delete. -/
theorem save_prediction_append_only (docs : List PredictionRecord)
    (rec : PredictionRecord) :
    (∀ id : String, ∃ newDocs,
      savePrediction docs rec (AddDocResult.ok id) = Except.ok (id, newDocs) ∧
      newDocs = docs ++ [rec] ∧
      newDocs.length = docs.length + 1) ∧
    (∀ msg : String,
      savePrediction docs rec (AddDocResult.error msg) = Except.error msg) ∧
    (∀ op : AdapterOp, op = AdapterOp.append ∨ op = AdapterOp.fetchRecent) := by
  refine ⟨?_, ?_, ?_⟩
  · intro id
    exact ⟨docs ++ [rec], rfl, rfl, by simp⟩
  · intro msg
    rfl
  · intro op
    cases op with
    | append => exact Or.inl rfl
    | fetchRecent => exact Or.inr rfl
